import Mathlib

/-!
Formal model of the pagination / date-windowing core of the
`tiktok-research-client` repository.

Python `datetime` values are modelled as natural numbers counting minutes;
one day is 1440 minutes.  A value produced by `datetime.strptime(_, "%Y-%m-%d")`
is a midnight, hence a multiple of 1440; `datetime.now()` may carry an
arbitrary time of day.  `timedelta(days = k)` is addition of `k * 1440`.
`strftime("%Y-%m-%d")` keeps only the day part, i.e. division by 1440.

The network is modelled by oracles: functions from the global fetch counter
(how many `fetch_data` calls were issued so far) and the current request
payload to an optional page response, `none` being the "no data" sentinel
that `fetch_data` yields when the POST fails.  Items carried by pages are
opaque and modelled as natural numbers.  The `while` loops of
`_cursor_iterator` / `search` / `get_comments` are modelled with an explicit
fuel; exhausting the fuel yields `Option.none` at the outermost level, so a
`some` result is a genuine, faithfully-computed return value of the loop.
-/

namespace TRC

/-! ### Date-range partitioner: `utils.generate_date_ranges` -/

/-- Minutes per day: the granularity at which Python `datetime` values are
compared in `generate_date_ranges` (finer granularities change nothing the
code observes, since only comparisons and day extraction occur). -/
def minutesPerDay : Nat := 1440

/-- `timedelta(days=30)`, the stride of the windowing loop, in minutes. -/
def strideMinutes : Nat := 30 * minutesPerDay

/-- The `while start_date < end_date` loop of
`utils.generate_date_ranges` (src/tiktok_research_client/utils.py, lines 61-78).
`fuel` is an upper bound on the remaining iterations; the loop advances
`start` by more than a day per iteration, so `endDate - start + 1` units of
fuel always suffice (`rangesLoopAux_congr`).  Each emitted pair holds the
`strftime`-rendered day ordinals of `(start_date, next_date)`. -/
def rangesLoopAux (endDate : Nat) : Nat → Nat → List (Nat × Nat)
  | 0, _ => []
  | fuel + 1, start =>
    if start < endDate then
      let next := if start + strideMinutes > endDate then endDate else start + strideMinutes
      (start / minutesPerDay, next / minutesPerDay) ::
        rangesLoopAux endDate fuel (next + minutesPerDay)
    else []

/-- `utils.generate_date_ranges(start_date_str, total_days)` evaluated with
wall clock `now` (in minutes).  `startDay` is the day ordinal parsed from
`start_date_str`; the result lists pairs of day ordinals (rendered to
calendar strings by `renderRanges`). -/
def generate_date_ranges (startDay totalDays now : Nat) : List (Nat × Nat) :=
  let start := startDay * minutesPerDay
  let endD := start + totalDays * minutesPerDay
  let endDate := if endD > now then now else endD
  rangesLoopAux endDate (endDate - start + 1) start

/-! ### Gregorian calendar, for rendering day ordinals as `YYYYMMDD` strings -/

/-- A calendar date, as carried by a Python `datetime`. -/
structure Date where
  year : Nat
  month : Nat
  day : Nat
deriving DecidableEq, Repr

/-- Gregorian leap-year rule. -/
def isLeap (y : Nat) : Bool :=
  (y % 4 == 0 && y % 100 != 0) || y % 400 == 0

/-- Number of days of month `m` of year `y`. -/
def daysInMonth (y m : Nat) : Nat :=
  if m = 2 then (if isLeap y then 29 else 28)
  else if m = 4 || m = 6 || m = 9 || m = 11 then 30
  else 31

/-- The calendar successor day. -/
def nextDay (d : Date) : Date :=
  if d.day < daysInMonth d.year d.month then ⟨d.year, d.month, d.day + 1⟩
  else if d.month < 12 then ⟨d.year, d.month + 1, 1⟩
  else ⟨d.year + 1, 1, 1⟩

/-- The date `n` days after `epoch`. -/
def dateAfter (epoch : Date) (n : Nat) : Date := nextDay^[n] epoch

/-- Zero-pad a month or day number to two digits, as `strftime` does. -/
def pad2 (n : Nat) : String := if n < 10 then "0" ++ toString n else toString n

/-- `strftime("%Y-%m-%d").replace("-", "")`: the `YYYYMMDD` rendering used
for the emitted window bounds. -/
def renderDate (d : Date) : String :=
  toString d.year ++ pad2 d.month ++ pad2 d.day

/-- Render a list of day-ordinal windows relative to `epoch` as the
`(YYYYMMDD, YYYYMMDD)` string pairs `generate_date_ranges` returns. -/
def renderRanges (epoch : Date) (l : List (Nat × Nat)) : List (String × String) :=
  l.map (fun w => (renderDate (dateAfter epoch w.1), renderDate (dateAfter epoch w.2)))

/-! ### The collector: `data_collection/collect.py` -/

/-- The fields of a video-query page response that the client reads:
`data.videos`, `data.has_more`, `data.cursor`, `data.search_id`. -/
structure Resp where
  videos : List Nat
  has_more : Bool
  cursor : Nat
  sid : Nat
deriving DecidableEq, Repr

/-- The mutable parts of the request payload dict built by `search` /
`_get_user_videos` and threaded through `_cursor_iterator`:
`start_date`, `end_date` and the optional `cursor` / `search_id` keys
(`none` models the key being absent from the dict). -/
structure QueryState where
  start_date : Nat
  end_date : Nat
  cursor : Option Nat
  sid : Option Nat
deriving DecidableEq, Repr

/-- A server oracle: the response of `fetch_data` as a function of the global
fetch counter and the request payload; `none` is the "no data" sentinel
returned when the POST fails after the (ineffective) retry wrapper. -/
abbrev Oracle := Nat → QueryState → Option Resp

/-- `TiktokClient._cursor_iterator(url, query, max_size)`
(collect.py lines 298-333).  State: fetch counter `k`, payload `q`,
accumulated `data`.  Returns the accumulated list, the payload dict as the
loop left it (the dict is mutated in place in Python and visible to the
caller), and the new fetch counter; `none` means the fuel ran out before the
loop did.  Faithful details: a failed fetch returns the data collected so
far; when `has_more` is false the function returns WITHOUT touching
`cursor` / `search_id`, so values set by an earlier page survive in `q`. -/
def cursorIterator (fetch : Oracle) (maxSize : Nat) :
    Nat → Nat → QueryState → List Nat → Option (List Nat × QueryState × Nat)
  | 0, _, _, _ => none
  | fuel + 1, k, q, data =>
    if data.length < maxSize then
      match fetch k q with
      | none => some (data, q, k + 1)
      | some r =>
        if r.has_more then
          cursorIterator fetch maxSize fuel (k + 1)
            ⟨q.start_date, q.end_date, some r.cursor, some r.sid⟩ (data ++ r.videos)
        else some (data ++ r.videos, q, k + 1)
    else some (data, q, k)

/-- The per-window loop of `TiktokClient.search(keywords, start_date, max_size)`
(collect.py lines 123-140): for each date range, set `start_date`/`end_date`
on the shared payload dict, break once `max_size` is reached, then call
`_cursor_iterator` TWICE (`output = self._cursor_iterator(...)` followed by
`videos.extend(self._cursor_iterator(...))` under an `output is not None`
check that always holds), extending `videos` only with the second call's
result. -/
def search (fetch : Oracle) (maxSize fuel : Nat) :
    List (Nat × Nat) → Nat → QueryState → List Nat → Option (List Nat × QueryState × Nat)
  | [], k, q, videos => some (videos, q, k)
  | (s, e) :: rest, k, q, videos =>
    let q1 : QueryState := ⟨s, e, q.cursor, q.sid⟩
    if videos.length < maxSize then
      match cursorIterator fetch maxSize fuel k q1 [] with
      | none => none
      | some (_, q2, k2) =>
        match cursorIterator fetch maxSize fuel k2 q2 [] with
        | none => none
        | some (out2, q3, k3) => search fetch maxSize fuel rest k3 q3 (videos ++ out2)
    else some (videos, q1, k)

/-- The fresh payload dict `search` builds before its window loop: no
`cursor`/`search_id` keys, dates not yet set. -/
def searchInit : QueryState := ⟨0, 0, none, none⟩

/-- The loop of `TiktokClient._get_user_videos` (collect.py lines 283-288):
one `_cursor_iterator` call per date range, no overall-cap break. -/
def userVideosLoop (fetch : Oracle) (maxSize fuel : Nat) :
    List (Nat × Nat) → Nat → QueryState → List Nat → Option (List Nat × QueryState × Nat)
  | [], k, q, videos => some (videos, q, k)
  | (s, e) :: rest, k, q, videos =>
    match cursorIterator fetch maxSize fuel k ⟨s, e, q.cursor, q.sid⟩ [] with
    | none => none
    | some (out, q2, k2) => userVideosLoop fetch maxSize fuel rest k2 q2 (videos ++ out)

/-- `TiktokClient.get_user(username)` (collect.py lines 150-169).
`userResp` is what `fetch_data` returned for the user-info request (`none`
is the sentinel); the video sub-collection runs first (Python evaluates the
right-hand side of `data["videos"] = self._get_user_videos(...)` before the
assignment), then the assignment `data["videos"] = ...` raises a TypeError
(modelled as `Except.error ()`) when `data` is the sentinel. -/
def get_user (userResp : Option Nat) (fetch : Oracle) (maxSize fuel : Nat)
    (ranges : List (Nat × Nat)) (k : Nat) : Option (Except Unit (Nat × List Nat)) :=
  match userVideosLoop fetch maxSize fuel ranges k searchInit [] with
  | none => none
  | some (vids, _, _) =>
    match userResp with
    | none => some (.error ())
    | some d => some (.ok (d, vids))

/-- The fields of a comment-page response that the client reads. -/
structure CResp where
  comments : List Nat
  has_more : Bool
  cursor : Nat
deriving DecidableEq, Repr

/-- Mutable parts of the comment-query payload of `get_comments`. -/
structure CQuery where
  video_id : Nat
  cursor : Option Nat
deriving DecidableEq, Repr

/-- Server oracle for the comment endpoint. -/
abbrev COracle := Nat → CQuery → Option CResp

/-- `TiktokClient.get_comments(video_id)` (collect.py lines 204-246).
The loop caps at 1000 comments; `response["data"]["comments"]` is
subscripted WITHOUT a `None` check, so a sentinel from `fetch_data` raises a
TypeError (modelled `Except.error ()`).  When `has_more` is false the code
sets and then deletes `cursor` before breaking.  The outer `none` again
means fuel exhaustion only. -/
def get_comments (fetch : COracle) :
    Nat → Nat → CQuery → List Nat → Option (Except Unit (List Nat × CQuery × Nat))
  | 0, _, _, _ => none
  | fuel + 1, k, q, comments =>
    if comments.length < 1000 then
      match fetch k q with
      | none => some (.error ())
      | some r =>
        if r.has_more then
          get_comments fetch fuel (k + 1) ⟨q.video_id, some r.cursor⟩ (comments ++ r.comments)
        else some (.ok (comments ++ r.comments, ⟨q.video_id, none⟩, k + 1))
    else some (.ok (comments, q, k))

/-! ### `fetch_data` and its tenacity retry wrapper -/

/-- The outcome of one attempt of the body of `TiktokClient.fetch_data`
(collect.py lines 176-202): obtaining the headers can raise (the token POST
is outside the `try`), the query POST can raise `requests.RequestException`
(which the `except` catches, returning `None`), or the POST succeeds. -/
inductive AttemptOutcome where
  | headerError
  | postFail
  | postOk (r : Resp)
deriving DecidableEq, Repr

/-- One execution of the body of `fetch_data`: an uncaught exception is
`Except.error ()`, a normal return carries the optional response —
`.ok none` is the sentinel produced when the POST raised and the `except`
branch ran `return None`. -/
def fetchBody (o : AttemptOutcome) : Except Unit (Option Resp) :=
  match o with
  | .headerError => .error ()
  | .postFail => .ok none
  | .postOk r => .ok (some r)

/-- The tenacity `@retry(stop=stop_after_attempt(3), wait=wait_fixed(2))`
wrapper around the body: re-runs the body ONLY when it raised; after the
attempt budget is spent the last exception propagates.  `att i` is the
outcome of the `i`-th attempt; the result pairs the call's outcome with the
number of attempts actually performed. -/
def tenacityRun (att : Nat → AttemptOutcome) : Nat → Nat → Except Unit (Option Resp) × Nat
  | _, 0 => (.error (), 0)
  | i, remaining + 1 =>
    match fetchBody (att i) with
    | .ok v => (.ok v, 1)
    | .error e =>
      if remaining = 0 then (.error e, 1)
      else
        let rest := tenacityRun att (i + 1) remaining
        (rest.1, rest.2 + 1)

/-- A call of the decorated `fetch_data`: up to 3 total attempts. -/
def fetch_data (att : Nat → AttemptOutcome) : Except Unit (Option Resp) :=
  (tenacityRun att 0 3).1

/-- Number of body attempts a `fetch_data` call performs. -/
def fetchAttempts (att : Nat → AttemptOutcome) : Nat :=
  (tenacityRun att 0 3).2

/-! ### The CLI dispatch of `__main__.main` -/

/-- Externally visible side effects of one `main` invocation. -/
inductive CliEffect where
  | network
  | fileWrite
deriving DecidableEq, Repr

/-- The values accepted by `click.Choice` for `--query_option`
(`__main__.py` lines 18-24). -/
def queryChoices : List String := ["user", "search", "comments"]

/-- The declared default of `--query_option`. -/
def defaultQueryOption : String := "keyword"

/-- The message of the `ValueError` raised by the final `else` of `main`. -/
def invalidOptionMsg : String := "Invalid query option"

/-- The `if/elif/else` dispatch of `main` (`__main__.py` lines 73-105):
which effects run for a given `query_option`, and the `ValueError` message
raised by the final `else`.  `collected` abstracts the items the selected
collector returned (an empty collection skips the file write). -/
def mainDispatch (query_option : String) (collected : List Nat) :
    List CliEffect × Option String :=
  if query_option = "user" then ([.network, .fileWrite], none)
  else if query_option = "search" then
    (if collected.length = 0 then [.network] else [.network, .fileWrite], none)
  else if query_option = "comments" then
    (if collected.length = 0 then [.network] else [.network, .fileWrite], none)
  else ([], some invalidOptionMsg)

/-! ### Concrete oracles used as witnesses and counterexamples -/

/-- Oracle for the stale-cursor run: window with `start_date = 1` has two
pages (the first hands out cursor 77 / search id 88), any later window
answers a "poisoned" page containing item 999 exactly when the request
carries cursor 77 — so item 999 in the output proves the stale cursor was
sent. -/
def fetchStale : Oracle := fun _ q =>
  if q.start_date = 1 then
    if q.cursor = none then some ⟨[100], true, 77, 88⟩
    else some ⟨[101], false, 0, 0⟩
  else
    if q.cursor = some 77 then some ⟨[999], false, 0, 0⟩
    else some ⟨[333], false, 0, 0⟩

/-- Oracle for the size-cap overrun: window 1 yields 2 items; window 2 pages
out 1, 2, 2 items and then a full 100-item page — every page within the
`max_count = 100` limit. -/
def fetchOverrun : Oracle := fun _ q =>
  if q.start_date = 1 then some ⟨[1, 2], false, 0, 0⟩
  else
    match q.cursor with
    | none => some ⟨[10], true, 10, 0⟩
    | some 10 => some ⟨[11, 12], true, 11, 0⟩
    | some 11 => some ⟨[13, 14], true, 12, 0⟩
    | some 12 => some ⟨List.replicate 100 50, false, 0, 0⟩
    | some _ => some ⟨[], false, 0, 0⟩

/-- Oracle for the partial-page-1 run: the first fetch succeeds with one
item and more data announced, every later fetch fails. -/
def fetchPageTwoFails : Oracle := fun k _ =>
  if k = 0 then some ⟨[41], true, 9, 9⟩ else none

/-- Comment oracle whose first page succeeds and whose second fetch fails
with the sentinel. -/
def cfetchThenFail : COracle := fun k _ =>
  if k = 0 then some ⟨[5], true, 9⟩ else none

/-- Oracle that always yields the sentinel. -/
def fetchAlwaysNone : Oracle := fun _ _ => none

/-- Comment oracle that always yields the sentinel. -/
def cfetchAlwaysNone : COracle := fun _ _ => none

/-! ## Theorems -/

/-! ### Partitioner lemmas -/

theorem rangesLoopAux_congr (endDate : Nat) :
    ∀ f g s, endDate - s < f → endDate - s < g →
      rangesLoopAux endDate f s = rangesLoopAux endDate g s := by
  intro f
  induction f with
  | zero => intro g s hf _; omega
  | succ f ih =>
    intro g s hf hg
    match g, hg with
    | g + 1, hg =>
      show rangesLoopAux endDate (f + 1) s = rangesLoopAux endDate (g + 1) s
      simp only [rangesLoopAux]
      by_cases h : s < endDate
      · simp only [if_pos h]
        congr 1
        by_cases hc : s + strideMinutes > endDate
        · simp only [if_pos hc]
          exact ih g (endDate + minutesPerDay)
            (by simp only [minutesPerDay]; omega) (by simp only [minutesPerDay]; omega)
        · simp only [if_neg hc]
          exact ih g (s + strideMinutes + minutesPerDay)
            (by simp only [strideMinutes, minutesPerDay] at *; omega)
            (by simp only [strideMinutes, minutesPerDay] at *; omega)
      · simp only [if_neg h]

theorem rangesLoopAux_head_fst (e : Nat) :
    ∀ f s y tl, rangesLoopAux e f s = y :: tl → y.1 = s / minutesPerDay := by
  intro f s y tl h
  match f with
  | 0 => simp [rangesLoopAux] at h
  | f + 1 =>
    simp only [rangesLoopAux] at h
    by_cases hs : s < e
    · rw [if_pos hs] at h
      injection h with h1 h2
      cases h1
      rfl
    · rw [if_neg hs] at h; simp at h

theorem rangesLoopAux_chain (e : Nat) :
    ∀ f s, List.Chain' (fun a b : Nat × Nat => a.2 + 1 = b.1) (rangesLoopAux e f s) := by
  intro f
  induction f with
  | zero => intro s; simp [rangesLoopAux]
  | succ f ih =>
    intro s
    simp only [rangesLoopAux]
    by_cases hs : s < e
    · rw [if_pos hs]
      refine List.chain'_cons'.mpr ⟨?_, ih _⟩
      intro y hy
      match hmem : rangesLoopAux e f
          ((if s + strideMinutes > e then e else s + strideMinutes) + minutesPerDay) with
      | [] => rw [hmem] at hy; simp at hy
      | z :: tl =>
        rw [hmem] at hy
        simp only [List.head?_cons, Option.mem_def, Option.some.injEq] at hy
        subst hy
        have := rangesLoopAux_head_fst e f _ z tl hmem
        rw [this, Nat.add_div_right _ (by simp [minutesPerDay])]
    · rw [if_neg hs]; simp

theorem rangesLoopAux_snd_le (e : Nat) :
    ∀ f s, ∀ w ∈ rangesLoopAux e f s, w.2 ≤ e / minutesPerDay := by
  intro f
  induction f with
  | zero => intro s w hw; simp [rangesLoopAux] at hw
  | succ f ih =>
    intro s w hw
    simp only [rangesLoopAux] at hw
    by_cases hs : s < e
    · rw [if_pos hs] at hw
      rcases List.mem_cons.mp hw with h | h
      · subst h
        by_cases hc : s + strideMinutes > e
        · simp only [if_pos hc]
          exact le_rfl
        · simp only [if_neg hc]
          exact Nat.div_le_div_right (by omega)
      · exact ih _ w h
    · rw [if_neg hs] at hw; simp at hw

/-! ### Claims C4 and C7: the partitioner -/

set_option maxRecDepth 100000 in
/-- Claim C4, counterexample: at `now` = 2022-04-12 00:00,
`generate_date_ranges("2022-01-01", 100)` does NOT return the windows the
spec's scenario lists (the spec has `("20220201","20220302")`,
`("20220303","20220401")`, `("20220402","20220411")`, but
Feb 1 + 30 days is Mar 3, so the code emits `("20220201","20220303")`,
`("20220304","20220403")`, `("20220404","20220411")`). -/
theorem spec_C4_counterexample :
    renderRanges ⟨2022, 1, 1⟩ (generate_date_ranges 0 100 (101 * minutesPerDay)) ≠
      [("20220101", "20220131"), ("20220201", "20220302"),
       ("20220303", "20220401"), ("20220402", "20220411")] := by decide

set_option maxRecDepth 100000 in
/-- Claim C4, amended: evaluated at any `now` later than 2022-04-11 00:00,
`generate_date_ranges("2022-01-01", 100)` returns exactly the 4 windows
`("20220101","20220131")`, `("20220201","20220303")`,
`("20220304","20220403")`, `("20220404","20220411")`. -/
theorem spec_C4 (now : Nat) (h : 100 * minutesPerDay < now) :
    renderRanges ⟨2022, 1, 1⟩ (generate_date_ranges 0 100 now) =
      [("20220101", "20220131"), ("20220201", "20220303"),
       ("20220304", "20220403"), ("20220404", "20220411")] := by
  have key : generate_date_ranges 0 100 now = generate_date_ranges 0 100 (101 * minutesPerDay) := by
    simp only [generate_date_ranges, minutesPerDay] at *
    rw [if_neg (by omega), if_neg (by omega)]
  rw [key]
  decide

set_option maxRecDepth 100000 in
/-- Witness for the amended claim C4 at the concrete instant 2022-04-12 00:00. -/
theorem spec_C4_witness :
    100 * minutesPerDay < 101 * minutesPerDay ∧
    renderRanges ⟨2022, 1, 1⟩ (generate_date_ranges 0 100 (101 * minutesPerDay)) =
      [("20220101", "20220131"), ("20220201", "20220303"),
       ("20220304", "20220403"), ("20220404", "20220411")] :=
  ⟨by decide, spec_C4 (101 * minutesPerDay) (by decide)⟩

/-- Claim C7: for every start day, every `total_days` and every wall clock,
the windows of `generate_date_ranges` are adjacent and in order (the end of
each window is the start of the next minus one day), every window's end is
at most `min(start + total_days, now)`, and `total_days = 0` yields no
windows. -/
theorem spec_C7 (startDay totalDays now : Nat) :
    (∀ i (h1 : i < (generate_date_ranges startDay totalDays now).length)
        (h2 : i + 1 < (generate_date_ranges startDay totalDays now).length),
        ((generate_date_ranges startDay totalDays now).get ⟨i, h1⟩).2 + 1 =
          ((generate_date_ranges startDay totalDays now).get ⟨i + 1, h2⟩).1) ∧
    (∀ w ∈ generate_date_ranges startDay totalDays now,
        w.2 ≤ min (startDay + totalDays) (now / minutesPerDay)) ∧
    (totalDays = 0 → generate_date_ranges startDay totalDays now = []) := by
  refine ⟨?_, ?_, ?_⟩
  · intro i h1 h2
    have hchain : List.Chain' (fun a b : Nat × Nat => a.2 + 1 = b.1)
        (generate_date_ranges startDay totalDays now) := rangesLoopAux_chain _ _ _
    exact List.chain'_iff_get.mp hchain i (by omega)
  · intro w hw
    simp only [generate_date_ranges] at hw
    have hle := rangesLoopAux_snd_le _ _ _ w hw
    refine le_trans hle (le_min ?_ ?_) <;>
      · simp only [minutesPerDay] at *
        split_ifs at * <;> omega
  · intro h0
    subst h0
    simp only [generate_date_ranges, rangesLoopAux, minutesPerDay]
    by_cases h : startDay * 1440 + 0 * 1440 > now
    · rw [if_pos h, if_neg (by omega)]
    · rw [if_neg h, if_neg (by omega)]

set_option maxRecDepth 100000 in
/-- Witness for claim C7: the adjacency equation at the first pair of
windows of a concrete run, and the empty result for `total_days = 0`. -/
theorem spec_C7_witness :
    ((generate_date_ranges 0 100 145440).get ⟨0, by decide⟩).2 + 1 =
      ((generate_date_ranges 0 100 145440).get ⟨1, by decide⟩).1 ∧
    generate_date_ranges 5 0 12345 = [] :=
  ⟨(spec_C7 0 100 145440).1 0 (by decide) (by decide), (spec_C7 5 0 12345).2.2 rfl⟩

/-! ### Claim C1: the retry wrapper of `fetch_data` -/

/-- Claim C1 is a code bug: when every POST attempt suffers a
transport-level failure or non-2xx status, `fetch_data` does return the
"no data" sentinel without raising, but it performs exactly ONE attempt,
not 3 — the `except requests.RequestException` inside the body swallows the
exception and returns `None`, so the tenacity wrapper sees a normal return
and never retries, and no inter-attempt delay ever happens. -/
theorem spec_C1 :
    fetch_data (fun _ => .postFail) = .ok none ∧
    fetchAttempts (fun _ => .postFail) = 1 ∧
    fetchAttempts (fun _ => .postFail) ≠ 3 := ⟨rfl, rfl, by decide⟩

/-- Contrast to claim C1: an exception that escapes the body of
`fetch_data` (the access-token POST is outside the `try`) IS retried up to
3 total attempts, after which it propagates as an exception — it does not
become the `None` sentinel either. -/
theorem fetch_data_header_failure_retries :
    fetch_data (fun _ => .headerError) = .error () ∧
    fetchAttempts (fun _ => .headerError) = 3 := ⟨rfl, rfl⟩

/-! ### Claim C2: cursor / search_id across window changes -/

/-- Claim C2 is a code bug: `_cursor_iterator` returns without deleting the
`cursor`/`search_id` keys when a page reports `has_more = false`, so a
window that took more than one page leaves the cursor of its second-to-last
page in the shared payload dict, and the next window's first request
carries it.  In this run, window `start_date = 1` hands out cursor 77 /
search id 88 on its first page; the oracle answers the poisoned item 999
exactly when a `start_date = 2` request carries cursor 77, and 333
otherwise — the result contains 999, and the final payload still holds
cursor 77 / search id 88. -/
theorem spec_C2 :
    search fetchStale 10 6 [(1, 10), (2, 20)] 0 searchInit [] =
      some ([101, 999], ⟨2, 20, some 77, some 88⟩, 5) ∧
    fetchStale 3 ⟨2, 20, none, none⟩ = some ⟨[333], false, 0, 0⟩ ∧
    fetchStale 3 ⟨2, 20, some 77, some 88⟩ = some ⟨[999], false, 0, 0⟩ := by decide

/-! ### Claim C5: degrading to partial results on the sentinel -/

/-- Claim C5 is a code bug: only `_cursor_iterator` checks the sentinel and
returns its partial data; `get_comments` subscripts `response["data"]` and
`get_user` assigns into `data["videos"]` without a `None` check, so both
raise a TypeError (modelled `Except.error ()`) when `fetch_data` yields the
sentinel — the partial page-1 comments of this run are lost. -/
theorem spec_C5 :
    get_comments cfetchThenFail 5 0 ⟨7, none⟩ [] = some (.error ()) ∧
    get_user none fetchAlwaysNone 3 5 [(1, 2)] 0 = some (.error ()) ∧
    cursorIterator fetchPageTwoFails 10 5 0 searchInit [] =
      some ([41], ⟨0, 0, some 9, some 9⟩, 2) := ⟨rfl, rfl, rfl⟩

/-! ### Claim C6: a failed page 2 returns page 1's items -/

/-- Claim C6: within one window, if the first page is fetched successfully
(announcing more data) and the second fetch yields the sentinel, then
`_cursor_iterator` returns exactly the first page's items, in order, as a
normal return value (no exception). -/
theorem spec_C6 (fetch : Oracle) (maxSize fuel k : Nat) (q : QueryState) (r : Resp)
    (h0 : 0 < maxSize) (h1 : fetch k q = some r) (hm : r.has_more = true)
    (hlen : r.videos.length < maxSize)
    (h2 : fetch (k + 1) ⟨q.start_date, q.end_date, some r.cursor, some r.sid⟩ = none) :
    cursorIterator fetch maxSize (fuel + 2) k q [] =
      some (r.videos, ⟨q.start_date, q.end_date, some r.cursor, some r.sid⟩, k + 2) := by
  have e0 : ([] : List Nat).length < maxSize := by simpa using h0
  simp only [cursorIterator, if_pos e0, h1, hm, if_pos, List.nil_append, if_pos hlen, h2]

/-- Witness for claim C6: the concrete page-2-failure oracle. -/
theorem spec_C6_witness :
    cursorIterator fetchPageTwoFails 10 5 0 searchInit [] =
      some ([41], ⟨0, 0, some 9, some 9⟩, 2) :=
  spec_C6 fetchPageTwoFails 10 3 0 searchInit ⟨[41], true, 9, 9⟩
    (by decide) (by decide) (by decide) (by decide) (by decide)

/-! ### Claim C9: the double traversal in `search` -/

/-- Claim C9, counterexample: the two `_cursor_iterator` invocations of a
processed window do NOT receive the same query state and do NOT issue the
window's page requests twice.  In window `start_date = 1` of the
stale-cursor oracle, the first invocation starts from a cursor-free payload,
issues two page requests (fetch counter 0 → 2) and collects `[100, 101]`;
the second invocation starts from the payload the first one mutated
(cursor 77 / search id 88 set), issues only ONE request (counter 2 → 3) and
collects only the suffix `[101]` — and `search` appends exactly that
suffix, not the full traversal's items. -/
theorem spec_C9_counterexample :
    cursorIterator fetchStale 10 6 0 ⟨1, 10, none, none⟩ [] =
      some ([100, 101], ⟨1, 10, some 77, some 88⟩, 2) ∧
    cursorIterator fetchStale 10 6 2 ⟨1, 10, some 77, some 88⟩ [] =
      some ([101], ⟨1, 10, some 77, some 88⟩, 3) ∧
    search fetchStale 10 6 [(1, 10)] 0 searchInit [] =
      some ([101], ⟨1, 10, some 77, some 88⟩, 3) ∧
    (⟨1, 10, none, none⟩ : QueryState) ≠ ⟨1, 10, some 77, some 88⟩ ∧
    ([101] : List Nat) ≠ [100, 101] := by decide

/-- Claim C9, amended: for every window that `search` processes (the
overall cap not yet reached), `_cursor_iterator` is invoked twice — the
second invocation resuming from the fetch counter and the payload dict
(including any `cursor`/`search_id` the first invocation set) that the
first invocation left behind, so it need not re-issue the window's page
requests — and only the second invocation's items are appended to the
result; the first invocation's result is discarded after a None-check that
never fails, since `_cursor_iterator` always returns a list (`out1` occurs
in the hypotheses only; the continuation appends `out2`). -/
theorem spec_C9 (fetch : Oracle) (maxSize fuel s e : Nat) (rest : List (Nat × Nat))
    (k k2 k3 : Nat) (q q2 q3 : QueryState) (videos out1 out2 : List Nat)
    (hcap : videos.length < maxSize)
    (h1 : cursorIterator fetch maxSize fuel k ⟨s, e, q.cursor, q.sid⟩ [] = some (out1, q2, k2))
    (h2 : cursorIterator fetch maxSize fuel k2 q2 [] = some (out2, q3, k3)) :
    search fetch maxSize fuel ((s, e) :: rest) k q videos =
      search fetch maxSize fuel rest k3 q3 (videos ++ out2) := by
  simp only [search, if_pos hcap, h1, h2]

/-- Witness for the amended claim C9: window 1 of the stale-cursor run,
whose first traversal collects `[100, 101]` and whose second collects only
`[101]` — the result of `search` keeps only the latter. -/
theorem spec_C9_witness :
    search fetchStale 10 6 [(1, 10)] 0 searchInit [] =
      search fetchStale 10 6 [] 3 ⟨1, 10, some 77, some 88⟩ ([] ++ [101]) :=
  spec_C9 fetchStale 10 6 1 10 [] 0 2 3 searchInit ⟨1, 10, some 77, some 88⟩
    ⟨1, 10, some 77, some 88⟩ [] [100, 101] [101] (by decide) (by decide) (by decide)

/-! ### Claim C3: how far the collected list can exceed `max_size` -/

theorem cursorIterator_length_le (fetch : Oracle) (maxSize : Nat)
    (hpages : ∀ k q r, fetch k q = some r → r.videos.length ≤ 100) :
    ∀ fuel k q data out q' k',
      cursorIterator fetch maxSize fuel k q data = some (out, q', k') →
      out.length ≤ max data.length (maxSize + 99) := by
  intro fuel
  induction fuel with
  | zero => intro k q data out q' k' h; simp [cursorIterator] at h
  | succ fuel ih =>
    intro k q data out q' k' h
    simp only [cursorIterator] at h
    by_cases hd : data.length < maxSize
    · rw [if_pos hd] at h
      cases hf : fetch k q with
      | none =>
        simp only [hf, Option.some.injEq, Prod.mk.injEq] at h
        obtain ⟨h1, -, -⟩ := h
        subst h1
        exact le_max_left _ _
      | some r =>
        simp only [hf] at h
        have hv := hpages k q r hf
        by_cases hm : r.has_more = true
        · rw [if_pos hm] at h
          have hrec := ih _ _ _ _ _ _ h
          have hlen : (data ++ r.videos).length ≤ maxSize + 99 := by
            simp only [List.length_append]; omega
          exact le_trans (le_trans hrec (max_le hlen le_rfl)) (le_max_right _ _)
        · rw [if_neg hm] at h
          simp only [Option.some.injEq, Prod.mk.injEq] at h
          obtain ⟨h1, -, -⟩ := h
          subst h1
          refine le_trans ?_ (le_max_right _ _)
          simp only [List.length_append]
          omega
    · rw [if_neg hd] at h
      simp only [Option.some.injEq, Prod.mk.injEq] at h
      obtain ⟨h1, -, -⟩ := h
      subst h1
      exact le_max_left _ _

theorem search_length_le (fetch : Oracle) (maxSize fuel : Nat)
    (hpages : ∀ k q r, fetch k q = some r → r.videos.length ≤ 100) :
    ∀ ranges k q videos vs q' k',
      videos.length ≤ 2 * maxSize + 98 →
      search fetch maxSize fuel ranges k q videos = some (vs, q', k') →
      vs.length ≤ 2 * maxSize + 98 := by
  intro ranges
  induction ranges with
  | nil =>
    intro k q videos vs q' k' hb h
    simp only [search, Option.some.injEq, Prod.mk.injEq] at h
    obtain ⟨h1, -, -⟩ := h
    subst h1
    exact hb
  | cons w rest ih =>
    obtain ⟨s, e⟩ := w
    intro k q videos vs q' k' hb h
    simp only [search] at h
    by_cases hcap : videos.length < maxSize
    · rw [if_pos hcap] at h
      cases h1 : cursorIterator fetch maxSize fuel k ⟨s, e, q.cursor, q.sid⟩ [] with
      | none => simp only [h1] at h; exact Option.noConfusion h
      | some t =>
        obtain ⟨out1, q2, k2⟩ := t
        simp only [h1] at h
        cases h2 : cursorIterator fetch maxSize fuel k2 q2 [] with
        | none => simp only [h2] at h; exact Option.noConfusion h
        | some t2 =>
          obtain ⟨out2, q3, k3⟩ := t2
          simp only [h2] at h
          refine ih k3 q3 (videos ++ out2) vs q' k' ?_ h
          have hout := cursorIterator_length_le fetch maxSize hpages fuel k2 q2 [] out2 q3 k3 h2
          have hout2 : out2.length ≤ maxSize + 99 := by
            simpa using hout
          simp only [List.length_append]
          omega
    · rw [if_neg hcap] at h
      simp only [Option.some.injEq, Prod.mk.injEq] at h
      obtain ⟨h1, -, -⟩ := h
      subst h1
      exact hb

/-- Pages of the overrun oracle respect the `max_count = 100` cap. -/
theorem fetchOverrun_page_bound :
    ∀ k q r, fetchOverrun k q = some r → r.videos.length ≤ 100 := by
  intro k q r h
  simp only [fetchOverrun] at h
  split at h
  · cases Option.some.inj h; decide
  · split at h <;> cases Option.some.inj h <;> decide

set_option maxRecDepth 100000 in
/-- Claim C3, counterexample: with `max_size = 3` and every page within the
100-item cap, `search` collects 104 items — more than `max_size + 100`.
Window 1 contributes 2 items (below the cap, so window 2 is processed) and
window 2's traversal reaches 2 items, stays below `max_size`, and then
appends a full 100-item page. -/
theorem spec_C3_counterexample :
    (∀ k q r, fetchOverrun k q = some r → r.videos.length ≤ 100) ∧
    (search fetchOverrun 3 10 [(1, 0), (2, 0)] 0 searchInit []).map
      (fun x => x.1.length) = some 104 ∧
    ¬ (104 ≤ 3 + 100) :=
  ⟨fetchOverrun_page_bound, by decide, by decide⟩

/-- Claim C3, amended: when every page holds at most `max_count = 100`
items, the list `search` collects holds at most `2 * max_size + 98` items:
at most `max_size - 1` items let a further window be processed, and one
window's traversal yields at most `max_size + 99` items (the loop continues
only below `max_size` and a page adds at most 100).  The claimed
`max_size + 100` bound holds for a single window but not across windows,
because `_cursor_iterator` is always given the full `max_size`, not the
remaining budget. -/
theorem spec_C3 (fetch : Oracle) (maxSize fuel : Nat) (ranges : List (Nat × Nat))
    (k k' : Nat) (q q' : QueryState) (vs : List Nat)
    (hpages : ∀ k q r, fetch k q = some r → r.videos.length ≤ 100)
    (h : search fetch maxSize fuel ranges k q [] = some (vs, q', k')) :
    vs.length ≤ 2 * maxSize + 98 :=
  search_length_le fetch maxSize fuel hpages ranges k q [] vs q' k' (by simp) h

set_option maxRecDepth 100000 in
/-- Witness for the amended claim C3: the overrun run attains the bound,
`104 ≤ 2 * 3 + 98`. -/
theorem spec_C3_witness :
    ([1, 2, 13, 14] ++ List.replicate 100 50).length ≤ 2 * 3 + 98 :=
  spec_C3 fetchOverrun 3 10 [(1, 0), (2, 0)] 0 6 searchInit ⟨2, 0, some 12, some 0⟩
    ([1, 2, 13, 14] ++ List.replicate 100 50) fetchOverrun_page_bound (by decide)

/-! ### Claim C8: termination of the collection loops -/

theorem cursorIterator_isSome (fetch : Oracle) (maxSize N : Nat)
    (hN : ∀ k q, N ≤ k → fetch k q = none ∨ ∀ r, fetch k q = some r → r.has_more = false) :
    ∀ fuel k q data, N + 1 < fuel + k → 0 < fuel →
      (cursorIterator fetch maxSize fuel k q data).isSome := by
  intro fuel
  induction fuel with
  | zero => intro k q data h h0; omega
  | succ fuel ih =>
    intro k q data hfk _
    simp only [cursorIterator]
    split
    · split
      · simp
      · rename_i r hf
        split
        · rename_i hm
          have hfuel : 0 < fuel := by
            rcases Nat.eq_zero_or_pos fuel with h0f | h0f
            · subst h0f
              have hk : N ≤ k := by omega
              rcases hN k q hk with hnone | hmore
              · simp [hf] at hnone
              · simp [hmore r hf] at hm
            · exact h0f
          exact ih (k + 1) _ (data ++ r.videos) (by omega) hfuel
        · simp
    · simp

theorem get_comments_isSome (fetch : COracle) (N : Nat)
    (hN : ∀ k q, N ≤ k → fetch k q = none ∨ ∀ r, fetch k q = some r → r.has_more = false) :
    ∀ fuel k q acc, N + 1 < fuel + k → 0 < fuel →
      (get_comments fetch fuel k q acc).isSome := by
  intro fuel
  induction fuel with
  | zero => intro k q acc h h0; omega
  | succ fuel ih =>
    intro k q acc hfk _
    simp only [get_comments]
    split
    · split
      · simp
      · rename_i r hf
        split
        · rename_i hm
          have hfuel : 0 < fuel := by
            rcases Nat.eq_zero_or_pos fuel with h0f | h0f
            · subst h0f
              have hk : N ≤ k := by omega
              rcases hN k q hk with hnone | hmore
              · simp [hf] at hnone
              · simp [hmore r hf] at hm
            · exact h0f
          exact ih (k + 1) _ (acc ++ r.comments) (by omega) hfuel
        · simp
    · simp

theorem search_isSome (fetch : Oracle) (maxSize N : Nat)
    (hN : ∀ k q, N ≤ k → fetch k q = none ∨ ∀ r, fetch k q = some r → r.has_more = false) :
    ∀ ranges k q videos, (search fetch maxSize (N + 2) ranges k q videos).isSome := by
  intro ranges
  induction ranges with
  | nil => intro k q videos; simp [search]
  | cons w rest ih =>
    obtain ⟨s, e⟩ := w
    intro k q videos
    simp only [search]
    split
    · have h1 : (cursorIterator fetch maxSize (N + 2) k ⟨s, e, q.cursor, q.sid⟩ []).isSome :=
        cursorIterator_isSome fetch maxSize N hN (N + 2) k _ [] (by omega) (by omega)
      obtain ⟨⟨out1, q2, k2⟩, heq1⟩ := Option.isSome_iff_exists.mp h1
      have h2 : (cursorIterator fetch maxSize (N + 2) k2 q2 []).isSome :=
        cursorIterator_isSome fetch maxSize N hN (N + 2) k2 q2 [] (by omega) (by omega)
      obtain ⟨⟨out2, q3, k3⟩, heq2⟩ := Option.isSome_iff_exists.mp h2
      simp only [heq1, heq2]
      exact ih k3 q3 (videos ++ out2)
    · simp

/-- Claim C8: whenever, from some point on, every fetch either fails (the
retry budget is exhausted, yielding the sentinel) or answers a final page
(`has_more = false`) — the formal reading of "within each window,
`has_more` eventually becomes false or a fetch eventually fails" — both the
windowed `search` loop (finitely many windows, each with bounded
pagination) and the `get_comments` loop terminate: fuel `N + 2` per
pagination is enough, so no loop runs forever. -/
theorem spec_C8 (fetch : Oracle) (cfetch : COracle) (maxSize N : Nat)
    (ranges : List (Nat × Nat)) (k kc : Nat) (q : QueryState) (videos : List Nat)
    (cq : CQuery) (acc : List Nat)
    (hN : ∀ k q, N ≤ k → fetch k q = none ∨ ∀ r, fetch k q = some r → r.has_more = false)
    (hNc : ∀ k q, N ≤ k → cfetch k q = none ∨ ∀ r, cfetch k q = some r → r.has_more = false) :
    (search fetch maxSize (N + 2) ranges k q videos).isSome ∧
    (get_comments cfetch (N + 2) kc cq acc).isSome :=
  ⟨search_isSome fetch maxSize N hN ranges k q videos,
   get_comments_isSome cfetch N hNc (N + 2) kc cq acc (by omega) (by omega)⟩

/-- Witness for claim C8: the always-failing oracles satisfy the
eventuality hypothesis at `N = 0`, and both loops terminate. -/
theorem spec_C8_witness :
    (search fetchAlwaysNone 7 (0 + 2) [(1, 2), (3, 4)] 0 searchInit []).isSome ∧
    (get_comments cfetchAlwaysNone (0 + 2) 0 ⟨5, none⟩ []).isSome :=
  spec_C8 fetchAlwaysNone cfetchAlwaysNone 7 0 [(1, 2), (3, 4)] 0 0 searchInit [] ⟨5, none⟩ []
    (fun _ _ _ => Or.inl rfl) (fun _ _ _ => Or.inl rfl)

/-! ### Claim C10: the CLI default query mode -/

/-- Claim C10: the declared default `--query_option` value "keyword" is not
one of the dispatchable choices; when it reaches the dispatch of `main`,
none of the user/search/comments branches runs, no network call or file
write happens, and `ValueError("Invalid query option")` is raised. -/
theorem spec_C10 :
    mainDispatch defaultQueryOption [] = ([], some invalidOptionMsg) ∧
    defaultQueryOption ∉ queryChoices := by decide

end TRC
